import Mathlib

/-!
# Verification of `compas_model` element geometry (Beam / Block)

This file gives a shallow embedding, over exact rational arithmetic, of the
element classes of the `compas_model` repository:

* `src/compas_model/elements/element.py`  (class `Element`)
* `src/compas_model/elements/one_dimensional/beam.py`  (class `Beam`)
* `src/compas_model/elements/zero_dimensional/block.py`  (class `Block`)

The geometric-primitive kernel (the `compas` library: `Point`, `Vector`,
`Frame`, `Box`, `Mesh`, `Polygon`, `bounding_box`, `convex_hull`,
`Transformation`) is an external collaborator of the repository; its
operations are embedded here following their `compas` 2.x semantics, with a
doc comment on each embedded kernel operation stating the modelled behaviour.
Floating-point numbers are modelled by exact rationals; operations whose exact
result can be irrational (vector length, unitization) are partial
(`Option`-valued) and are only ever evaluated, in the theorems below, at
inputs where the exact result is rational.
-/

namespace CompasModel

/-- A 3-component vector / point over ℚ (models `compas` `Point` / `Vector`,
whose coordinates are floats). -/
structure Vec3 where
  x : ℚ
  y : ℚ
  z : ℚ
deriving DecidableEq, Repr

namespace Vec3

def add (a b : Vec3) : Vec3 := ⟨a.x + b.x, a.y + b.y, a.z + b.z⟩

def sub (a b : Vec3) : Vec3 := ⟨a.x - b.x, a.y - b.y, a.z - b.z⟩

def neg (a : Vec3) : Vec3 := ⟨-a.x, -a.y, -a.z⟩

/-- Scalar multiple (models `compas` `Vector.__mul__` / `scale_vector`). -/
def smul (s : ℚ) (a : Vec3) : Vec3 := ⟨s * a.x, s * a.y, s * a.z⟩

/-- Dot product (models `compas` `dot_vectors`). -/
def dot (a b : Vec3) : ℚ := a.x * b.x + a.y * b.y + a.z * b.z

/-- Cross product (models `compas` `cross_vectors`). -/
def cross (a b : Vec3) : Vec3 :=
  ⟨a.y * b.z - a.z * b.y, a.z * b.x - a.x * b.z, a.x * b.y - a.y * b.x⟩

/-- Squared euclidean norm. -/
def normSq (a : Vec3) : ℚ := dot a a

instance : Add Vec3 := ⟨add⟩
instance : Sub Vec3 := ⟨sub⟩
instance : Neg Vec3 := ⟨neg⟩
end Vec3

/-- Exact rational square root: `some r` with `r ≥ 0`, `r * r = q` when such an
`r` exists in ℚ, else `none`.  This models the float `sqrt` of the kernel
restricted to the exactly-representable fragment: every theorem below only
evaluates it where the exact result is rational. -/
def ratSqrtExact (q : ℚ) : Option ℚ :=
  if q < 0 then none
  else
    let r : ℚ := (Nat.sqrt q.num.toNat : ℚ) / (Nat.sqrt q.den : ℚ)
    if r * r = q then some r else none
/-- Length of a vector (models `compas` `Vector.length` /
`distance_point_point`, which compute a float `sqrt`): exact, partial. -/
def vecLength (v : Vec3) : Option ℚ := ratSqrtExact (Vec3.normSq v)

/-- Distance between two points (models `compas` `distance_point_point`). -/
def distancePointPoint (a b : Vec3) : Option ℚ := vecLength (b - a)

/-- Models `compas` `Vector.unitize`: divide the vector by its length.
`none` models both a Python `ZeroDivisionError` on a zero vector and an exact
length that is not rational (outside the verified fragment). -/
def unitize (v : Vec3) : Option Vec3 :=
  match vecLength v with
  | none => none
  | some l => if l = 0 then none else some (Vec3.smul (1 / l) v)
/-- Centroid of a list of points (models `compas` `centroid_points`:
the arithmetic mean of the points). -/
def centroidPoints (pts : List Vec3) : Vec3 :=
  let n : ℚ := pts.length
  let s := pts.foldl Vec3.add ⟨0, 0, 0⟩
  Vec3.smul (1 / n) s

/-- A coordinate frame: origin point and three axes.  Models `compas` `Frame`
(which stores unitized, mutually orthogonal axes).  Definitions below
construct frames only through `mkFrame`, whose outputs are orthonormal. -/
structure FrameQ where
  point : Vec3
  xaxis : Vec3
  yaxis : Vec3
  zaxis : Vec3
deriving DecidableEq, Repr

/-- Models the `compas` `Frame(point, xaxis, yaxis)` constructor: the x-axis is
unitized; the z-axis is the unitized cross product of the unitized input axes;
the stored y-axis is `zaxis × xaxis` (re-orthonormalized). -/
def mkFrame (p xaxis yaxis : Vec3) : Option FrameQ := do
  let xu ← unitize xaxis
  let yu ← unitize yaxis
  let zu ← unitize (Vec3.cross xu yu)
  pure ⟨p, xu, Vec3.cross zu xu, zu⟩

/-- A rigid (affine, rotation + translation) transformation over ℚ, given by
the three rows of its linear part and a translation vector.  Models a `compas`
`Transformation` restricted to rigid motions, which is the only kind the
verified claims quantify over. -/
structure Rigid3 where
  r1 : Vec3
  r2 : Vec3
  r3 : Vec3
  t : Vec3
deriving DecidableEq, Repr

/-- Apply the linear (rotation) part to a vector. -/
def applyVec (T : Rigid3) (v : Vec3) : Vec3 :=
  ⟨Vec3.dot T.r1 v, Vec3.dot T.r2 v, Vec3.dot T.r3 v⟩

/-- Apply the transformation to a point. -/
def applyPt (T : Rigid3) (p : Vec3) : Vec3 := applyVec T p + T.t

/-- Models `compas` `Frame.transform` for a rigid transformation: the origin is
mapped by the transformation and each axis by its rotation part.  (In `compas`
the transformed basis vectors are re-orthonormalized by the axes setter; for a
rigid transformation of an orthonormal frame that renormalization is the
identity, so it is omitted here.) -/
def frameTransform (T : Rigid3) (f : FrameQ) : FrameQ :=
  ⟨applyPt T f.point, applyVec T f.xaxis, applyVec T f.yaxis, applyVec T f.zaxis⟩

/-- A box: local frame plus sizes along the frame's three axes.  Models the
`compas` `Box(xsize, ysize, zsize, frame)` shape. -/
structure BoxQ where
  frame : FrameQ
  xsize : ℚ
  ysize : ℚ
  zsize : ℚ
deriving DecidableEq, Repr

namespace BoxQ

/-- `compas` `Box.width`: the size of the box along the x-axis of its frame. -/
def width (b : BoxQ) : ℚ := b.xsize

/-- `compas` `Box.depth`: the size of the box along the y-axis of its frame. -/
def depth (b : BoxQ) : ℚ := b.ysize

/-- `compas` `Box.height`: the size of the box along the z-axis of its frame. -/
def height (b : BoxQ) : ℚ := b.zsize

/-- The eight corner points of a box, in the order of the `compas`
`Box.points` property: four corners of the bottom face
(`a = center - x·dx - y·dy - z·dz`, `b = a + y·ysize`, `c = b + x·xsize`,
`d = a + x·xsize`), then the top face (`e, f, g, h` vertically above
`a, d, c, b` respectively). -/
def points (b : BoxQ) : List Vec3 :=
  let p := b.frame.point
  let dx := Vec3.smul (b.xsize / 2) b.frame.xaxis
  let dy := Vec3.smul (b.ysize / 2) b.frame.yaxis
  let dz := Vec3.smul (b.zsize / 2) b.frame.zaxis
  let a := p - dx - dy - dz
  let bb := p - dx + dy - dz
  let c := p + dx + dy - dz
  let d := p + dx - dy - dz
  let zfull := Vec3.smul b.zsize b.frame.zaxis
  [a, bb, c, d, a + zfull, d + zfull, c + zfull, bb + zfull]

/-- `compas` `Box.corner(index)`: the corner at the given index of
`Box.points`; out-of-range indices raise (here: junk `(0,0,0)`, never used —
the source only calls it with `range(8)`). -/
def corner (b : BoxQ) (i : Nat) : Vec3 := (points b).getD i ⟨0, 0, 0⟩

/-- The face list of `compas` `Box.to_vertices_and_faces`: six quads over the
corner indices of `Box.points`. -/
def faces : List (List Nat) :=
  [[0, 1, 2, 3], [0, 3, 5, 4], [3, 2, 6, 5], [2, 1, 7, 6], [1, 0, 4, 7], [4, 5, 6, 7]]

/-- Models `compas` `Box.transform` for a rigid transformation: the box's
frame is transformed, the sizes are unchanged. -/
def transform (T : Rigid3) (b : BoxQ) : BoxQ :=
  { b with frame := frameTransform T b.frame }

/-- Membership of a point in a box whose frame axes are unit vectors: the
point's offset from the center has a projection on each axis of at most half
the corresponding size. -/
def containsPt (b : BoxQ) (p : Vec3) : Prop :=
  |Vec3.dot (p - b.frame.point) b.frame.xaxis| * 2 ≤ b.xsize ∧
  |Vec3.dot (p - b.frame.point) b.frame.yaxis| * 2 ≤ b.ysize ∧
  |Vec3.dot (p - b.frame.point) b.frame.zaxis| * 2 ≤ b.zsize

instance (b : BoxQ) (p : Vec3) : Decidable (containsPt b p) := by
  unfold containsPt
  infer_instance

/-- A vector is parallel to a world axis when at most one component is
nonzero. -/
def axisParallel (v : Vec3) : Prop :=
  (v.y = 0 ∧ v.z = 0) ∨ (v.x = 0 ∧ v.z = 0) ∨ (v.x = 0 ∧ v.y = 0)

instance (v : Vec3) : Decidable (axisParallel v) := by
  unfold axisParallel
  infer_instance

/-- A box is world-axis-aligned when each of its frame axes is parallel to a
world axis. -/
def worldAligned (b : BoxQ) : Prop :=
  axisParallel b.frame.xaxis ∧ axisParallel b.frame.yaxis ∧ axisParallel b.frame.zaxis

instance (b : BoxQ) : Decidable (worldAligned b) := by
  unfold worldAligned
  infer_instance

end BoxQ

/-- Models `compas` `bounding_box(points)`: the eight corners of the
world-axis-aligned bounding box of a point list, in the `compas` order
(bottom face counterclockwise from `(xmin, ymin, zmin)`, then top face). -/
def boundingBox (pts : List Vec3) : List Vec3 :=
  let xs := pts.map Vec3.x
  let ys := pts.map Vec3.y
  let zs := pts.map Vec3.z
  let xmin := xs.foldl min (xs.headD 0)
  let xmax := xs.foldl max (xs.headD 0)
  let ymin := ys.foldl min (ys.headD 0)
  let ymax := ys.foldl max (ys.headD 0)
  let zmin := zs.foldl min (zs.headD 0)
  let zmax := zs.foldl max (zs.headD 0)
  [⟨xmin, ymin, zmin⟩, ⟨xmax, ymin, zmin⟩, ⟨xmax, ymax, zmin⟩, ⟨xmin, ymax, zmin⟩,
   ⟨xmin, ymin, zmax⟩, ⟨xmax, ymin, zmax⟩, ⟨xmax, ymax, zmax⟩, ⟨xmin, ymax, zmax⟩]

/-- Models `compas` `Box.from_bounding_box(bbox)`: with `a = bbox[0]`,
`b = bbox[1]`, `d = bbox[3]`, `e = bbox[4]`, the sizes are the distances from
`a` to `b`, `d`, `e`, and the frame is `Frame(centroid(bbox), b - a, d - a)`. -/
def fromBoundingBox (bbox : List Vec3) : Option BoxQ := do
  let a := bbox.getD 0 ⟨0, 0, 0⟩
  let b := bbox.getD 1 ⟨0, 0, 0⟩
  let d := bbox.getD 3 ⟨0, 0, 0⟩
  let e := bbox.getD 4 ⟨0, 0, 0⟩
  let xsize ← distancePointPoint a b
  let ysize ← distancePointPoint a d
  let zsize ← distancePointPoint a e
  let f ← mkFrame (centroidPoints bbox) (b - a) (d - a)
  pure ⟨f, xsize, ysize, zsize⟩

/-- Models `compas` `Box.from_points(points)`: the box of the bounding box of
the points. -/
def boxFromPoints (pts : List Vec3) : Option BoxQ :=
  fromBoundingBox (boundingBox pts)

/-- A halfedge mesh, reduced to what the element code uses: vertex
coordinates and faces as vertex-index loops.  Models `compas` `Mesh` together
with `Mesh.from_vertices_and_faces` / `Mesh.to_vertices_and_faces`. -/
structure MeshData where
  vertices : List Vec3
  faces : List (List Nat)
deriving DecidableEq, Repr

/-- Models `compas` `Mesh.transform`: every vertex coordinate is mapped by the
transformation; the face topology is unchanged. -/
def meshTransform (T : Rigid3) (m : MeshData) : MeshData :=
  { m with vertices := m.vertices.map (applyPt T) }

/-- Models `compas` `Mesh.aabb()` as used by `Block.compute_aabb`: the eight
`bounding_box` corner points of the mesh's vertex coordinates. -/
def meshAabbPoints (m : MeshData) : List Vec3 := boundingBox m.vertices

/-- A line segment (models `compas` `Line`). -/
structure LineQ where
  start : Vec3
  stop : Vec3
deriving DecidableEq, Repr

/-- Models `compas` `Line.transform`: both end points are transformed. -/
def lineTransform (T : Rigid3) (l : LineQ) : LineQ :=
  ⟨applyPt T l.start, applyPt T l.stop⟩

/-- A polygon: an ordered loop of points (models `compas` `Polygon`). -/
def PolygonQ := List Vec3
deriving DecidableEq, Repr

/-- Models `compas` `Polygon.transform`: every point is transformed. -/
def polygonTransform (T : Rigid3) (p : PolygonQ) : PolygonQ :=
  List.map (applyPt T) p

/-- The Python exceptions raised by the element constructors. -/
inductive PyErr where
  | valueError (msg : String) : PyErr
  | typeError (msg : String) : PyErr
deriving DecidableEq, Repr

/-- The keyword parameters accepted by `Element.__init__` in
`src/compas_model/elements/element.py` (besides `self`):
`geometry`, `frame`, `name`. -/
def elementInitParams : List String := ["geometry", "frame", "name"]

/-- Models the Python semantics of calling `Element.__init__` with a list of
keyword-argument names: the call raises
`TypeError: ... got an unexpected keyword argument '<k>'` at the first keyword
not among the declared parameters, and succeeds otherwise. -/
def elementInitCall (kwargs : List String) : Except PyErr Unit :=
  match kwargs.find? (fun k => ¬ elementInitParams.contains k) with
  | some k => .error (.typeError ("got an unexpected keyword argument " ++ k))
  | none => .ok ()

/-! ## Beam (`src/compas_model/elements/one_dimensional/beam.py`) -/

/-- The attribute state of a `Beam` instance that the verified methods read
and write.  The cached derived attributes `_aabb`, `_obb`, `_collision_mesh`,
`_face_polygons` are `None` (here `none`) until populated.  (`_face_polygons`
is an optional list because `Beam.__init__` sets it to `None`.) -/
structure BeamState where
  frame : FrameQ
  geometrySimplified : LineQ
  geometry : BoxQ
  aabb : Option BoxQ
  obb : Option BoxQ
  collisionMesh : Option MeshData
  facePolygons : Option (List PolygonQ)
deriving DecidableEq, Repr

/-- `Beam._create_box(frame, xsize, ysize, zsize)`: copy the frame, offset its
point by `xaxis * zsize * 0.5`, and build `Box(zsize, xsize, ysize)` on that
frame.  (The parameter names follow the source; `Beam.__init__` calls it as
`_create_box(frame, width, height, length)`, so the resulting box has
`xsize = length`, `ysize = width`, `zsize = height`.) -/
def beamCreateBox (frame : FrameQ) (xsize ysize zsize : ℚ) : BoxQ :=
  let boxframe : FrameQ :=
    { frame with point := frame.point + Vec3.smul (zsize * (1/2)) frame.xaxis }
  ⟨boxframe, zsize, xsize, ysize⟩

/-- `Beam.__init__(frame, length, width, height)`: raises `ValueError` for
non-positive `length`, then `width`, then `height`; otherwise builds the
simplified line `Line(frame.point, frame.point + frame.xaxis * length)` and
the box `_create_box(frame, width, height, length)` and forwards them to
`Element.__init__` as keyword arguments `frame=`, `geometry_simplified=`,
`geometry=`.  `Element.__init__` (element.py) accepts only `geometry`,
`frame`, `name`, so that call raises `TypeError`; the state a succeeding call
would have produced is also returned for reference. -/
def beamInit (frame : FrameQ) (length width height : ℚ) : Except PyErr BeamState :=
  if length ≤ 0 then .error (.valueError "Length should be greater than zero.")
  else if width ≤ 0 then .error (.valueError "Width should be greater than zero.")
  else if height ≤ 0 then .error (.valueError "Height should be greater than zero.")
  else
    let line : LineQ := ⟨frame.point, frame.point + Vec3.smul length frame.xaxis⟩
    let box := beamCreateBox frame width height length
    match elementInitCall ["frame", "geometry_simplified", "geometry"] with
    | .error e => .error e
    | .ok _ =>
        .ok ⟨frame, line, box, none, none, none, none⟩

/-- `Beam.dimensions`: `[geometry.width, geometry.height, geometry.depth]`,
i.e. `[xsize, zsize, ysize]` of the geometry box.  (The `TypeError` branch for
a non-`Box` geometry is unreachable here because the embedded geometry is a
box by construction.) -/
def beamDimensions (s : BeamState) : List ℚ :=
  [s.geometry.width, s.geometry.height, s.geometry.depth]

/-- The three inflation statements shared by `Beam.compute_aabb` and
`Beam.compute_obb`:
`box.xsize *= (box.width + inflate) / box.width` and likewise for
`ysize`/`depth` and `zsize`/`height`.  `none` models the Python
`ZeroDivisionError` when a current dimension is zero. -/
def beamInflate (b : BoxQ) (inflate : ℚ) : Option BoxQ :=
  if b.width = 0 ∨ b.depth = 0 ∨ b.height = 0 then none
  else some { b with
    xsize := b.xsize * ((b.width + inflate) / b.width),
    ysize := b.ysize * ((b.depth + inflate) / b.depth),
    zsize := b.zsize * ((b.height + inflate) / b.height) }

/-- `Beam.compute_aabb(inflate)`: `Box.from_bounding_box([geometry.corner(i)
for i in range(8)])`, then the three inflation statements.  (The source
passes the geometry box's own corners — not their world-axis-aligned
bounding box — to `from_bounding_box`.) -/
def beamComputeAabb (g : BoxQ) (inflate : ℚ) : Option BoxQ := do
  let b ← fromBoundingBox ((List.range 8).map (BoxQ.corner g))
  beamInflate b inflate

/-- `Beam.compute_obb(inflate)`: a copy of the geometry box, then the three
inflation statements. -/
def beamComputeObb (g : BoxQ) (inflate : ℚ) : Option BoxQ :=
  beamInflate g inflate

/-- `Beam.compute_collision_mesh()`:
`Mesh.from_vertices_and_faces(*geometry.to_vertices_and_faces())` — the
geometry box converted to a mesh. -/
def beamComputeCollisionMesh (g : BoxQ) : MeshData :=
  ⟨BoxQ.points g, BoxQ.faces⟩

/-- `Beam.mid_point`: `frame.point + frame.xaxis * dimensions[2] * 0.5`. -/
def beamMidPoint (s : BeamState) : Vec3 :=
  s.frame.point + Vec3.smul ((beamDimensions s).getD 2 0 * (1/2)) s.frame.xaxis

/-- `Beam.compute_face_polygons()`: the six offset quads of the source, built
from `mid_point`, `frame.point`, `p5 = frame.point + xaxis * dimensions[2]`
and the offset pairs over `dimensions[0]` (y-axis), `dimensions[1]` (z-axis)
and `dimensions[2]` (x-axis). -/
def beamComputeFacePolygons (s : BeamState) : List PolygonQ :=
  let d0 := (beamDimensions s).getD 0 0
  let d1 := (beamDimensions s).getD 1 0
  let d2 := (beamDimensions s).getD 2 0
  let mid := beamMidPoint s
  let xoff := Vec3.smul (d2 * (1/2)) s.frame.xaxis
  let yoff := Vec3.smul (d0 * (1/2)) s.frame.yaxis
  let zoff := Vec3.smul (d1 * (1/2)) s.frame.zaxis
  let p0 := mid + yoff
  let p1 := mid - zoff
  let p2 := mid - yoff
  let p3 := mid + zoff
  let p5 := s.frame.point + Vec3.smul d2 s.frame.xaxis
  let quad := fun (p o1 o2 : Vec3) => [p + o1 + o2, p + o1 - o2, p - o1 - o2, p - o1 + o2]
  [quad p0 xoff zoff, quad p1 xoff yoff, quad p2 xoff zoff,
   quad p3 xoff yoff, quad s.frame.point yoff zoff, quad p5 yoff zoff]

/-- The Python truthiness test `if self._face_polygons:` for an optional list
attribute: `None` and the empty list are falsy. -/
def pyTruthyList {α : Type} : Option (List α) → Bool
  | none => false
  | some l => !l.isEmpty

/-- `Beam.transform(transformation)`: transforms `frame`,
`geometry_simplified` and `geometry` in place, then updates exactly the
already-populated caches — `_aabb` is recomputed from scratch (with the
default `inflate=0`) from the post-transform geometry, `_obb`,
`_collision_mesh` and each polygon of `_face_polygons` are transformed in
place — and leaves unpopulated caches unpopulated.  `none` models an
exception escaping from the `compute_aabb` call. -/
def beamTransform (T : Rigid3) (s : BeamState) : Option BeamState :=
  let frame' := frameTransform T s.frame
  let gs' := lineTransform T s.geometrySimplified
  let g' := BoxQ.transform T s.geometry
  let obb' := s.obb.map (BoxQ.transform T)
  let cm' := s.collisionMesh.map (meshTransform T)
  let fp' := if pyTruthyList s.facePolygons
             then s.facePolygons.map (List.map (polygonTransform T))
             else s.facePolygons
  match s.aabb with
  | none => some ⟨frame', gs', g', none, obb', cm', fp'⟩
  | some _ =>
      (beamComputeAabb g' 0).map fun b => ⟨frame', gs', g', some b, obb', cm', fp'⟩

/-- `Element.transformed(transformation)` (element.py): a deep value copy of
the element (`compas` `Data.copy`, external) followed by an in-place
`transform`; the receiver is left unmodified, which in this value-level
embedding is immediate. -/
def beamTransformed (T : Rigid3) (s : BeamState) : Option BeamState :=
  beamTransform T s

/-! ## Block (`src/compas_model/elements/zero_dimensional/block.py`) -/

/-- The attribute state of a `Block` instance.  `_face_polygons` is a plain
list because `Block.__init__` initializes it to `[]` (not `None`). -/
structure BlockState where
  frame : FrameQ
  geometrySimplified : Vec3
  geometry : MeshData
  aabb : Option BoxQ
  obb : Option BoxQ
  collisionMesh : Option MeshData
  facePolygons : List PolygonQ
deriving DecidableEq, Repr

/-- `Block.__init__(closed_mesh)`: the `isinstance(closed_mesh, Mesh)` check
holds by typing here (the embedded argument is a mesh); the mesh centroid is
computed by the external kernel (`Mesh.centroid`, passed in as `centroid`);
the constructor then forwards keyword arguments `frame=`,
`geometry_simplified=`, `geometry=`, `index=` to `Element.__init__`, which
accepts only `geometry`, `frame`, `name`, so the call raises `TypeError`.
The state a succeeding call would have produced is also returned for
reference. -/
def blockInit (centroid : Vec3) (closed_mesh : MeshData) : Except PyErr BlockState :=
  match elementInitCall ["frame", "geometry_simplified", "geometry", "index"] with
  | .error e => .error e
  | .ok _ =>
      .ok ⟨⟨centroid, ⟨1, 0, 0⟩, ⟨0, 1, 0⟩, ⟨0, 0, 1⟩⟩, centroid, closed_mesh,
           none, none, none, []⟩

/-- The three inflation statements of `Block.compute_aabb` and
`Block.compute_obb`: `box.xsize += inflate`, `box.ysize += inflate`,
`box.zsize += inflate`. -/
def blockInflate (b : BoxQ) (inflate : ℚ) : BoxQ :=
  { b with xsize := b.xsize + inflate, ysize := b.ysize + inflate,
           zsize := b.zsize + inflate }

/-- `Block.compute_aabb(inflate)`: `Box.from_points(geometry.aabb())`, then
the three additive inflation statements. -/
def blockComputeAabb (g : MeshData) (inflate : ℚ) : Option BoxQ :=
  (boxFromPoints (meshAabbPoints g)).map (blockInflate · inflate)

/-- `Block.compute_obb(inflate)`: `Box.from_points(geometry.obb())`, then the
three additive inflation statements.  The oriented-bounding-box corner points
`geometry.obb()` come from the external kernel and are passed in as
`obbPts`. -/
def blockComputeObb (obbPts : List Vec3) (inflate : ℚ) : Option BoxQ :=
  (boxFromPoints obbPts).map (blockInflate · inflate)

/-- `Block.dimensions`: the guard `if not type(self.geometry) is None:` is
always true in Python (`type(x)` is a class, never `None`), so every access
calls `compute_aabb()` (with the default `inflate=0.0`), overwriting `_aabb`,
and then returns `[aabb.width, aabb.height, aabb.depth]` of the freshly
stored AABB.  Returns the value together with the mutated state; `none`
models an exception escaping `compute_aabb`. -/
def blockDimensions (s : BlockState) : Option (List ℚ × BlockState) :=
  (blockComputeAabb s.geometry 0).map fun b =>
    ([b.width, b.height, b.depth], { s with aabb := some b })

/-- `Block.compute_collision_mesh()`: takes the vertex coordinates of the
block's mesh, replaces the face list by `convex_hull(points)` (external
kernel, passed in as `hull`), stores the resulting mesh in `_collision_mesh`
and returns a mesh built from the same vertices and hull faces.  The mesh's
own faces are discarded. -/
def blockComputeCollisionMesh (hull : List Vec3 → List (List Nat))
    (s : BlockState) : MeshData × BlockState :=
  let points := s.geometry.vertices
  let faces := hull points
  (⟨points, faces⟩, { s with collisionMesh := some ⟨points, faces⟩ })

/-- `Block._compute_face_polygons()`: the body begins with
`if hasattr(self, "_face_polygons"): return self._face_polygons`.  The
attribute `_face_polygons` is set by `__init__` (to `[]`), so the guard is
taken on every instance and the stored list is returned unchanged; the
remainder of the method (iterating `self.geometry` and converting mesh faces
to polygons) is unreachable. -/
def blockComputeFacePolygons (s : BlockState) : List PolygonQ :=
  s.facePolygons

/-- The `Block.face_polygons` property: `if not self._face_polygons:`
(falsy when empty) recompute via `_compute_face_polygons` and store;
returns the value together with the possibly-updated state. -/
def blockFacePolygons (s : BlockState) : List PolygonQ × BlockState :=
  if s.facePolygons.isEmpty then
    let computed := blockComputeFacePolygons s
    (computed, { s with facePolygons := computed })
  else (s.facePolygons, s)

/-- `Block.transform(transformation)`, with an explicit recursion-depth fuel
to model Python's call stack: transforms `frame`, `geometry_simplified` and
`geometry` in place; recomputes `_aabb` when populated; transforms `_obb` in
place when populated; then — when `_collision_mesh` is populated — executes
`self.transform(transformation)`, i.e. re-enters the whole method on the
current state (whose `_collision_mesh` is still populated); finally
transforms the face polygons when the list is non-empty.  `none` models a
raised exception, including the `RecursionError` reached when the fuel runs
out. -/
def blockTransformAux : Nat → Rigid3 → BlockState → Option BlockState
  | 0, _, _ => none
  | n + 1, T, s =>
      let s1 : BlockState :=
        { s with frame := frameTransform T s.frame,
                 geometrySimplified := applyPt T s.geometrySimplified,
                 geometry := meshTransform T s.geometry }
      let aabbStep : Option BlockState :=
        match s1.aabb with
        | none => some s1
        | some _ => (blockComputeAabb s1.geometry 0).map fun b => { s1 with aabb := some b }
      match aabbStep with
      | none => none
      | some s2 =>
          let s3 : BlockState := { s2 with obb := s2.obb.map (BoxQ.transform T) }
          let afterCollision : Option BlockState :=
            match s3.collisionMesh with
            | none => some s3
            | some _ => blockTransformAux n T s3
          match afterCollision with
          | none => none
          | some s4 =>
              some { s4 with facePolygons :=
                       if s4.facePolygons.isEmpty then s4.facePolygons
                       else s4.facePolygons.map (polygonTransform T) }

/-- An orthonormal right-handed frame: unit axes, orthogonal, with
`zaxis = xaxis × yaxis`. -/
def FrameQ.ortho (f : FrameQ) : Prop :=
  Vec3.normSq f.xaxis = 1 ∧ Vec3.normSq f.yaxis = 1 ∧
  Vec3.dot f.xaxis f.yaxis = 0 ∧ f.zaxis = Vec3.cross f.xaxis f.yaxis

/-! ## Concrete fixtures used by witnesses and counterexamples -/

/-- The world-XY frame (`compas` `Frame.worldXY()`). -/
def worldXYFrame : FrameQ := ⟨⟨0, 0, 0⟩, ⟨1, 0, 0⟩, ⟨0, 1, 0⟩, ⟨0, 0, 1⟩⟩

/-- A frame rotated about the world z-axis by the 3-4-5 angle. -/
def rotatedFrame : FrameQ :=
  ⟨⟨0, 0, 0⟩, ⟨3/5, 4/5, 0⟩, ⟨-4/5, 3/5, 0⟩, ⟨0, 0, 1⟩⟩

/-- A closed tetrahedron mesh on four vertices. -/
def tetraMesh : MeshData :=
  ⟨[⟨0, 0, 0⟩, ⟨1, 0, 0⟩, ⟨0, 1, 0⟩, ⟨0, 0, 1⟩],
   [[0, 2, 1], [0, 1, 3], [0, 3, 2], [1, 2, 3]]⟩

/-- Translation by `(1, 0, 0)`. -/
def translateX : Rigid3 := ⟨⟨1, 0, 0⟩, ⟨0, 1, 0⟩, ⟨0, 0, 1⟩, ⟨1, 0, 0⟩⟩

/-- Translation by `(-1, 0, 0)`: the inverse of `translateX`. -/
def translateXinv : Rigid3 := ⟨⟨1, 0, 0⟩, ⟨0, 1, 0⟩, ⟨0, 0, 1⟩, ⟨-1, 0, 0⟩⟩

/-- A `Block` state whose collision-mesh cache is populated (the failing
configuration of `Block.transform`). -/
def blockWithCollisionMesh : BlockState :=
  ⟨worldXYFrame, ⟨0, 0, 0⟩, tetraMesh, none, none, some tetraMesh, []⟩

/-- A freshly constructed `Block` state on the tetrahedron (empty face-polygon
list, no caches), as `Block.__init__` would produce it. -/
def freshTetraBlock : BlockState :=
  ⟨worldXYFrame, ⟨0, 0, 0⟩, tetraMesh, none, none, none, []⟩

/-- A `Block` state with a previously computed *inflated* AABB cache
(`compute_aabb(inflate=1)` stores sizes `2, 2, 2` for the tetrahedron). -/
def tetraBlockInflatedAabb : BlockState :=
  ⟨worldXYFrame, ⟨0, 0, 0⟩, tetraMesh, some
     ⟨⟨⟨1/2, 1/2, 1/2⟩, ⟨1, 0, 0⟩, ⟨0, 1, 0⟩, ⟨0, 0, 1⟩⟩, 2, 2, 2⟩,
   none, none, []⟩

/-- A `Beam` state for `Beam(frame=worldXY, length=2, width=1, height=1)`:
geometry box centered at `(1,0,0)` with `xsize=2, ysize=1, zsize=1`. -/
def beam211 : BeamState :=
  ⟨worldXYFrame, ⟨⟨0, 0, 0⟩, ⟨2, 0, 0⟩⟩, beamCreateBox worldXYFrame 1 1 2,
   none, none, none, none⟩

/-- A cubic `Beam` state (`length = width = height = 2`, world frame) whose
AABB cache was populated with `compute_aabb(inflate=1)` (sizes `3, 3, 3`). -/
def beamCubeInflatedAabb : BeamState :=
  ⟨worldXYFrame, ⟨⟨0, 0, 0⟩, ⟨2, 0, 0⟩⟩, beamCreateBox worldXYFrame 2 2 2,
   some ⟨⟨⟨1, 0, 0⟩, ⟨0, 1, 0⟩, ⟨1, 0, 0⟩, ⟨0, 0, -1⟩⟩, 3, 3, 3⟩,
   none, none, none⟩

/-- The world-aligned unit box centered at `(1/2, 1/2, 1/2)`: the uninflated
AABB of the tetrahedron. -/
def tetraUnitAabb : BoxQ :=
  ⟨⟨⟨1/2, 1/2, 1/2⟩, ⟨1, 0, 0⟩, ⟨0, 1, 0⟩, ⟨0, 0, 1⟩⟩, 1, 1, 1⟩

/-- A stand-in for the external `convex_hull` kernel routine, used to
instantiate hull-parametric theorems at a concrete value. -/
def hullConst : List Vec3 → List (List Nat) := fun _ => [[0, 1, 2]]

/-- A block state sharing `tetraMesh`'s vertices but with a different face
list (used to show the collision mesh ignores the mesh's own faces). -/
def altFacesBlock : BlockState :=
  ⟨worldXYFrame, ⟨0, 0, 0⟩, ⟨tetraMesh.vertices, [[0, 1, 2], [1, 2, 3]]⟩,
   none, none, none, []⟩

/-- The uninflated AABB that `Beam.compute_aabb(0)` yields for the cubic
beam's geometry box (axes permuted by `from_bounding_box`). -/
def beamCubeAabb0 : BoxQ :=
  ⟨⟨⟨1, 0, 0⟩, ⟨0, 1, 0⟩, ⟨1, 0, 0⟩, ⟨0, 0, -1⟩⟩, 2, 2, 2⟩

/-- The state the cubic beam reaches after `transformed(T)` then
`transformed(T⁻¹)`: everything restored except the AABB cache, which now
holds the uninflated AABB instead of the cached inflated one. -/
def beamCubeRoundTripped : BeamState :=
  { beamCubeInflatedAabb with aabb := some beamCubeAabb0 }

/-! ## Basic algebraic lemmas -/

namespace Vec3

theorem add_def (a b : Vec3) : a + b = ⟨a.x + b.x, a.y + b.y, a.z + b.z⟩ := rfl

theorem sub_def (a b : Vec3) : a - b = ⟨a.x - b.x, a.y - b.y, a.z - b.z⟩ := rfl

@[ext]
theorem ext {a b : Vec3} (hx : a.x = b.x) (hy : a.y = b.y) (hz : a.z = b.z) :
    a = b := by
  cases a; cases b; simp_all

/-- Lagrange identity specialised to ℚ³: the squared norm of a cross product. -/
theorem normSq_cross (a b : Vec3) :
    normSq (cross a b) = normSq a * normSq b - (dot a b) ^ 2 := by
  simp only [normSq, cross, dot]
  ring

/-- Vector triple product `(a × b) × a = (a·a) b - (a·b) a`. -/
theorem cross_cross_self (a b : Vec3) :
    cross (cross a b) a = smul (dot a a) b - smul (dot a b) a := by
  simp only [cross, dot, smul, sub_def]
  ext <;> ring

/-- Vector triple product `(a × b) × c = (c·a) b - (c·b) a`. -/
theorem cross_cross_right (a b c : Vec3) :
    cross (cross a b) c = smul (dot c a) b - smul (dot c b) a := by
  simp only [cross, dot, smul, sub_def]
  ext <;> ring

theorem dot_comm (a b : Vec3) : dot a b = dot b a := by
  simp only [dot]; ring

theorem cross_anticomm (a b : Vec3) : cross b a = neg (cross a b) := by
  simp only [cross, neg]
  ext <;> ring

theorem cross_neg_left (a b : Vec3) : cross (neg a) b = neg (cross a b) := by
  simp only [cross, neg]
  ext <;> ring

theorem normSq_smul (s : ℚ) (v : Vec3) : normSq (smul s v) = s ^ 2 * normSq v := by
  simp only [normSq, dot, smul]
  ring

theorem normSq_neg (v : Vec3) : normSq (neg v) = normSq v := by
  simp only [normSq, dot, neg]
  ring

end Vec3


theorem ratSqrtExact_sq (s : ℚ) (hs : 0 ≤ s) : ratSqrtExact (s * s) = some s := by
  have hnum : (s * s).num = s.num * s.num := Rat.mul_self_num s
  have hden : (s * s).den = s.den * s.den := Rat.mul_self_den s
  have hnn : 0 ≤ s.num := Rat.num_nonneg.mpr hs
  obtain ⟨n, hn⟩ := Int.eq_ofNat_of_zero_le hnn
  have htoNat : (s * s).num.toNat = s.num.toNat * s.num.toNat := by
    rw [hnum, hn, ← Nat.cast_mul, Int.toNat_natCast, Int.toNat_natCast]
  have hsq1 : Nat.sqrt (s * s).num.toNat = s.num.toNat := by
    rw [htoNat, Nat.sqrt_eq]
  have hsq2 : Nat.sqrt (s * s).den = s.den := by
    rw [hden, Nat.sqrt_eq]
  have hval : ((Nat.sqrt (s * s).num.toNat : ℚ) / (Nat.sqrt (s * s).den : ℚ)) = s := by
    rw [hsq1, hsq2]
    have : ((s.num.toNat : ℤ) : ℚ) = (s.num : ℚ) := by
      rw [Int.toNat_of_nonneg hnn]
    push_cast at this ⊢
    rw [this]
    exact Rat.num_div_den s
  have hnonneg : ¬ (s * s) < 0 := not_lt.mpr (mul_self_nonneg s)
  simp only [ratSqrtExact, hnonneg, if_false]
  rw [hval]
  simp

/-- `ratSqrtExact` evaluated at a square given as a power. -/
theorem ratSqrtExact_pow (s : ℚ) (hs : 0 ≤ s) : ratSqrtExact (s ^ 2) = some s := by
  rw [sq]
  exact ratSqrtExact_sq s hs


theorem unitize_of_normSq_one {v : Vec3} (h : Vec3.normSq v = 1) :
    unitize v = some v := by
  simp only [unitize, vecLength, h, ratSqrtExact]
  norm_num
  ext <;> simp [Vec3.smul]

theorem unitize_smul {v : Vec3} {s : ℚ} (h : Vec3.normSq v = 1) (hs : 0 < s) :
    unitize (Vec3.smul s v) = some v := by
  have hns : Vec3.normSq (Vec3.smul s v) = s * s := by
    simp only [Vec3.normSq, Vec3.dot, Vec3.smul] at h ⊢
    nlinarith [h]
  simp only [unitize, vecLength, hns, ratSqrtExact_sq s hs.le]
  rw [if_neg hs.ne']
  congr 1
  ext <;> simp [Vec3.smul] <;> field_simp

/-! ## Closed-form evaluation lemmas -/

/-- `fromBoundingBox` on an explicit eight-point list, unfolded to its
bind-chain. -/
theorem fromBoundingBox_explicit (a b c d e f g h : Vec3) :
    fromBoundingBox [a, b, c, d, e, f, g, h] =
      (distancePointPoint a b).bind fun xs =>
      (distancePointPoint a d).bind fun ys =>
      (distancePointPoint a e).bind fun zs =>
      (mkFrame (centroidPoints [a, b, c, d, e, f, g, h]) (b - a) (d - a)).bind fun fr =>
      some ⟨fr, xs, ys, zs⟩ := rfl

/-- The frame step of `from_bounding_box`, for edge vectors that are positive
multiples of two orthogonal unit vectors: the frame comes out as
`(y, x, y × x)`. -/
theorem mkFrame_smul_ortho (p x y : Vec3) (sx sy : ℚ)
    (hx : Vec3.normSq x = 1) (hy : Vec3.normSq y = 1)
    (hxy : Vec3.dot x y = 0) (hsx : 0 < sx) (hsy : 0 < sy) :
    mkFrame p (Vec3.smul sy y) (Vec3.smul sx x) =
      some ⟨p, y, x, Vec3.neg (Vec3.cross x y)⟩ := by
  have hyx : Vec3.dot y x = 0 := by rw [Vec3.dot_comm]; exact hxy
  have hzu : Vec3.normSq (Vec3.cross x y) = 1 := by
    rw [Vec3.normSq_cross, hx, hy, hxy]
    norm_num
  rw [mkFrame]
  rw [unitize_smul hy hsy, unitize_smul hx hsx]
  simp only [Option.bind_eq_bind, Option.some_bind]
  have hcyx : Vec3.cross y x = Vec3.neg (Vec3.cross x y) := Vec3.cross_anticomm x y
  rw [hcyx, unitize_of_normSq_one (by rw [Vec3.normSq_neg]; exact hzu)]
  simp only [Option.some_bind]
  have hyaxis : Vec3.cross (Vec3.neg (Vec3.cross x y)) y = x := by
    have hy' : Vec3.dot y y = 1 := hy
    rw [Vec3.cross_neg_left, Vec3.cross_cross_right, hyx, hy']
    simp only [Vec3.smul, Vec3.sub_def, Vec3.neg]
    ext <;> norm_num
  rw [hyaxis]
  rfl

/-- `Box.from_bounding_box` applied to the corner list of a box with an
orthonormal frame: the corner list is *not* an axis-aligned bounding box, and
`from_bounding_box` reconstructs the same (in general rotated) solid with the
x- and y- roles exchanged: the resulting box has frame axes
`(yaxis, xaxis, -zaxis)` and sizes `(ysize, xsize, zsize)`. -/
theorem fromBoundingBox_points (p x y z : Vec3) (sx sy sz : ℚ)
    (hf : FrameQ.ortho ⟨p, x, y, z⟩)
    (hsx : 0 < sx) (hsy : 0 < sy) (hsz : 0 < sz) :
    fromBoundingBox (BoxQ.points ⟨⟨p, x, y, z⟩, sx, sy, sz⟩) =
      some ⟨⟨p, y, x, Vec3.neg z⟩, sy, sx, sz⟩ := by
  have hx : Vec3.normSq x = 1 := hf.1
  have hy : Vec3.normSq y = 1 := hf.2.1
  have hxy : Vec3.dot x y = 0 := hf.2.2.1
  have hz : z = Vec3.cross x y := hf.2.2.2
  have hzu : Vec3.normSq z = 1 := by
    rw [hz, Vec3.normSq_cross, hx, hy, hxy]
    norm_num
  have hpoints : BoxQ.points ⟨⟨p, x, y, z⟩, sx, sy, sz⟩ =
      [p - Vec3.smul (sx / 2) x - Vec3.smul (sy / 2) y - Vec3.smul (sz / 2) z,
       p - Vec3.smul (sx / 2) x + Vec3.smul (sy / 2) y - Vec3.smul (sz / 2) z,
       p + Vec3.smul (sx / 2) x + Vec3.smul (sy / 2) y - Vec3.smul (sz / 2) z,
       p + Vec3.smul (sx / 2) x - Vec3.smul (sy / 2) y - Vec3.smul (sz / 2) z,
       p - Vec3.smul (sx / 2) x - Vec3.smul (sy / 2) y - Vec3.smul (sz / 2) z +
         Vec3.smul sz z,
       p + Vec3.smul (sx / 2) x - Vec3.smul (sy / 2) y - Vec3.smul (sz / 2) z +
         Vec3.smul sz z,
       p + Vec3.smul (sx / 2) x + Vec3.smul (sy / 2) y - Vec3.smul (sz / 2) z +
         Vec3.smul sz z,
       p - Vec3.smul (sx / 2) x + Vec3.smul (sy / 2) y - Vec3.smul (sz / 2) z +
         Vec3.smul sz z] := rfl
  rw [hpoints, fromBoundingBox_explicit]
  have hba : (p - Vec3.smul (sx / 2) x + Vec3.smul (sy / 2) y - Vec3.smul (sz / 2) z) -
      (p - Vec3.smul (sx / 2) x - Vec3.smul (sy / 2) y - Vec3.smul (sz / 2) z) =
      Vec3.smul sy y := by
    simp only [Vec3.smul, Vec3.add_def, Vec3.sub_def]
    ext <;> ring
  have hda : (p + Vec3.smul (sx / 2) x - Vec3.smul (sy / 2) y - Vec3.smul (sz / 2) z) -
      (p - Vec3.smul (sx / 2) x - Vec3.smul (sy / 2) y - Vec3.smul (sz / 2) z) =
      Vec3.smul sx x := by
    simp only [Vec3.smul, Vec3.add_def, Vec3.sub_def]
    ext <;> ring
  have hea : (p - Vec3.smul (sx / 2) x - Vec3.smul (sy / 2) y - Vec3.smul (sz / 2) z +
      Vec3.smul sz z) -
      (p - Vec3.smul (sx / 2) x - Vec3.smul (sy / 2) y - Vec3.smul (sz / 2) z) =
      Vec3.smul sz z := by
    simp only [Vec3.smul, Vec3.add_def, Vec3.sub_def]
    ext <;> ring
  have hcentroid : centroidPoints
      [p - Vec3.smul (sx / 2) x - Vec3.smul (sy / 2) y - Vec3.smul (sz / 2) z,
       p - Vec3.smul (sx / 2) x + Vec3.smul (sy / 2) y - Vec3.smul (sz / 2) z,
       p + Vec3.smul (sx / 2) x + Vec3.smul (sy / 2) y - Vec3.smul (sz / 2) z,
       p + Vec3.smul (sx / 2) x - Vec3.smul (sy / 2) y - Vec3.smul (sz / 2) z,
       p - Vec3.smul (sx / 2) x - Vec3.smul (sy / 2) y - Vec3.smul (sz / 2) z +
         Vec3.smul sz z,
       p + Vec3.smul (sx / 2) x - Vec3.smul (sy / 2) y - Vec3.smul (sz / 2) z +
         Vec3.smul sz z,
       p + Vec3.smul (sx / 2) x + Vec3.smul (sy / 2) y - Vec3.smul (sz / 2) z +
         Vec3.smul sz z,
       p - Vec3.smul (sx / 2) x + Vec3.smul (sy / 2) y - Vec3.smul (sz / 2) z +
         Vec3.smul sz z] = p := by
    simp only [centroidPoints, List.foldl, List.length,
      Vec3.smul, Vec3.add, Vec3.add_def, Vec3.sub_def]
    ext <;> (simp only []; ring_nf)
  simp only [distancePointPoint, vecLength]
  rw [hba, hda, hea, hcentroid]
  rw [Vec3.normSq_smul, Vec3.normSq_smul, Vec3.normSq_smul, hx, hy, hzu,
    mul_one, mul_one, mul_one,
    ratSqrtExact_pow sy hsy.le, ratSqrtExact_pow sx hsx.le, ratSqrtExact_pow sz hsz.le,
    mkFrame_smul_ortho p x y sx sy hx hy hxy hsx hsy]
  simp only [Option.some_bind]
  rw [← hz]

theorem range8_map_corner (g : BoxQ) :
    (List.range 8).map (BoxQ.corner g) = BoxQ.points g := rfl

/-- For positive current dimensions, the multiplicative inflation lines of
`Beam.compute_aabb`/`compute_obb` reduce to the additive inflation lines of
`Block.compute_aabb`/`compute_obb`: each size grows by exactly `inflate`. -/
theorem beamInflate_pos (b : BoxQ) (t : ℚ)
    (hx : 0 < b.xsize) (hy : 0 < b.ysize) (hz : 0 < b.zsize) :
    beamInflate b t = some (blockInflate b t) := by
  have hx' : b.xsize ≠ 0 := hx.ne'
  have hy' : b.ysize ≠ 0 := hy.ne'
  have hz' : b.zsize ≠ 0 := hz.ne'
  have h1 : b.xsize * ((b.width + t) / b.width) = b.xsize + t := by
    rw [BoxQ.width]; field_simp
  have h2 : b.ysize * ((b.depth + t) / b.depth) = b.ysize + t := by
    rw [BoxQ.depth]; field_simp
  have h3 : b.zsize * ((b.height + t) / b.height) = b.zsize + t := by
    rw [BoxQ.height]; field_simp
  rw [beamInflate, if_neg, h1, h2, h3, blockInflate]
  rw [BoxQ.width, BoxQ.depth, BoxQ.height]
  push_neg
  exact ⟨hx', hy', hz'⟩

/-- Closed form of `Beam.compute_aabb` for a beam box with an orthonormal
frame and positive sizes: the result is the *frame-aligned* box with axes
`(yaxis, xaxis, -zaxis)`, sizes `(ysize + inflate, xsize + inflate,
zsize + inflate)`, centered at the box's center — not a world-axis-aligned
bounding box. -/
theorem beamComputeAabb_closed (p x y z : Vec3) (sx sy sz t : ℚ)
    (hf : FrameQ.ortho ⟨p, x, y, z⟩)
    (hsx : 0 < sx) (hsy : 0 < sy) (hsz : 0 < sz) :
    beamComputeAabb ⟨⟨p, x, y, z⟩, sx, sy, sz⟩ t =
      some ⟨⟨p, y, x, Vec3.neg z⟩, sy + t, sx + t, sz + t⟩ := by
  rw [beamComputeAabb, range8_map_corner,
    fromBoundingBox_points p x y z sx sy sz hf hsx hsy hsz]
  simp only [Option.some_bind, Option.bind_eq_bind]
  rw [beamInflate_pos _ t hsy hsx hsz]
  rw [blockInflate]

/-- `Box.from_bounding_box` on a genuine (`compas`-ordered) world-aligned
bounding box with nondegenerate extents: the world-aligned box with the
given extents, centered at the midpoint. -/
theorem fromBoundingBox_axisAligned (x0 x1 y0 y1 z0 z1 : ℚ)
    (hx : x0 < x1) (hy : y0 < y1) (hz : z0 < z1) :
    fromBoundingBox
      [⟨x0, y0, z0⟩, ⟨x1, y0, z0⟩, ⟨x1, y1, z0⟩, ⟨x0, y1, z0⟩,
       ⟨x0, y0, z1⟩, ⟨x1, y0, z1⟩, ⟨x1, y1, z1⟩, ⟨x0, y1, z1⟩] =
      some ⟨⟨⟨(x0 + x1) / 2, (y0 + y1) / 2, (z0 + z1) / 2⟩,
             ⟨1, 0, 0⟩, ⟨0, 1, 0⟩, ⟨0, 0, 1⟩⟩, x1 - x0, y1 - y0, z1 - z0⟩ := by
  rw [fromBoundingBox_explicit]
  have hba : (⟨x1, y0, z0⟩ - ⟨x0, y0, z0⟩ : Vec3) = Vec3.smul (x1 - x0) ⟨1, 0, 0⟩ := by
    simp only [Vec3.sub_def, Vec3.smul]
    ext <;> ring
  have hda : (⟨x0, y1, z0⟩ - ⟨x0, y0, z0⟩ : Vec3) = Vec3.smul (y1 - y0) ⟨0, 1, 0⟩ := by
    simp only [Vec3.sub_def, Vec3.smul]
    ext <;> ring
  have hea : (⟨x0, y0, z1⟩ - ⟨x0, y0, z0⟩ : Vec3) = Vec3.smul (z1 - z0) ⟨0, 0, 1⟩ := by
    simp only [Vec3.sub_def, Vec3.smul]
    ext <;> ring
  have hcen : centroidPoints
      [⟨x0, y0, z0⟩, ⟨x1, y0, z0⟩, ⟨x1, y1, z0⟩, ⟨x0, y1, z0⟩,
       ⟨x0, y0, z1⟩, ⟨x1, y0, z1⟩, ⟨x1, y1, z1⟩, ⟨x0, y1, z1⟩] =
      (⟨(x0 + x1) / 2, (y0 + y1) / 2, (z0 + z1) / 2⟩ : Vec3) := by
    simp only [centroidPoints, List.foldl, List.length, Vec3.add, Vec3.smul]
    ext <;> (simp only []; ring_nf)
  simp only [distancePointPoint, vecLength]
  rw [hba, hda, hea, hcen]
  rw [Vec3.normSq_smul, Vec3.normSq_smul, Vec3.normSq_smul]
  have h100 : Vec3.normSq ⟨1, 0, 0⟩ = 1 := by norm_num [Vec3.normSq, Vec3.dot]
  have h010 : Vec3.normSq ⟨0, 1, 0⟩ = 1 := by norm_num [Vec3.normSq, Vec3.dot]
  have h001 : Vec3.normSq ⟨0, 0, 1⟩ = 1 := by norm_num [Vec3.normSq, Vec3.dot]
  rw [h100, h010, h001, mul_one, mul_one, mul_one,
    ratSqrtExact_pow (x1 - x0) (by linarith), ratSqrtExact_pow (y1 - y0) (by linarith),
    ratSqrtExact_pow (z1 - z0) (by linarith)]
  have hms := mkFrame_smul_ortho (⟨(x0 + x1) / 2, (y0 + y1) / 2, (z0 + z1) / 2⟩ : Vec3)
    ⟨0, 1, 0⟩ ⟨1, 0, 0⟩ (y1 - y0) (x1 - x0) h010 h100
    (by norm_num [Vec3.dot]) (by linarith) (by linarith)
  rw [hms]
  simp only [Option.some_bind]
  have : Vec3.neg (Vec3.cross ⟨0, 1, 0⟩ ⟨1, 0, 0⟩) = (⟨0, 0, 1⟩ : Vec3) := by
    simp only [Vec3.cross, Vec3.neg]
    ext <;> norm_num
  rw [this]

/-! ## Round-trip lemmas for a transformation followed by its inverse -/

section RoundTrip

variable {T Ti : Rigid3}

theorem frameTransform_roundtrip (hT : ∀ p, applyPt Ti (applyPt T p) = p)
    (hTv : ∀ v, applyVec Ti (applyVec T v) = v) (f : FrameQ) :
    frameTransform Ti (frameTransform T f) = f := by
  cases f
  simp [frameTransform, hT, hTv]

theorem boxTransform_roundtrip (hT : ∀ p, applyPt Ti (applyPt T p) = p)
    (hTv : ∀ v, applyVec Ti (applyVec T v) = v) (b : BoxQ) :
    BoxQ.transform Ti (BoxQ.transform T b) = b := by
  cases b
  simp [BoxQ.transform, frameTransform_roundtrip hT hTv]

theorem lineTransform_roundtrip (hT : ∀ p, applyPt Ti (applyPt T p) = p)
    (l : LineQ) : lineTransform Ti (lineTransform T l) = l := by
  cases l
  simp [lineTransform, hT]

theorem meshTransform_roundtrip (hT : ∀ p, applyPt Ti (applyPt T p) = p)
    (m : MeshData) : meshTransform Ti (meshTransform T m) = m := by
  cases m
  simp [meshTransform, List.map_map, Function.comp_def, hT]

theorem polygonTransform_roundtrip (hT : ∀ p, applyPt Ti (applyPt T p) = p)
    (pg : PolygonQ) : polygonTransform Ti (polygonTransform T pg) = pg := by
  simp [polygonTransform, List.map_map, Function.comp_def, hT]

end RoundTrip

/-- `Block.transform` never returns when the collision-mesh cache is
populated, for any recursion depth: the collision-mesh branch re-enters
`transform` on a state whose collision-mesh cache is still populated. -/
theorem blockTransformAux_none (n : Nat) (T : Rigid3) (s : BlockState)
    (h : s.collisionMesh.isSome) : blockTransformAux n T s = none := by
  induction n generalizing s with
  | zero => rfl
  | succ n ih =>
      obtain ⟨cm, hcm⟩ := Option.isSome_iff_exists.mp h
      rw [blockTransformAux]
      cases haabb : s.aabb with
      | none =>
          simp only [haabb, hcm]
          rw [ih _ (by simp)]
      | some b =>
          simp only [haabb, hcm]
          cases hcomp : blockComputeAabb (meshTransform T s.geometry) 0 with
          | none => rfl
          | some b' =>
              simp only [Option.map_some']
              rw [ih _ (by simp)]

/-- The `bounding_box` corners of the tetrahedron's vertices: the unit-cube
corners. -/
theorem meshAabbPoints_tetra : meshAabbPoints tetraMesh =
    [⟨0, 0, 0⟩, ⟨1, 0, 0⟩, ⟨1, 1, 0⟩, ⟨0, 1, 0⟩,
     ⟨0, 0, 1⟩, ⟨1, 0, 1⟩, ⟨1, 1, 1⟩, ⟨0, 1, 1⟩] := by
  norm_num [meshAabbPoints, boundingBox, tetraMesh, List.foldl, min_def, max_def]

/-- `bounding_box` is the identity on the unit-cube corner list. -/
theorem boundingBox_unitCube :
    boundingBox [⟨0, 0, 0⟩, ⟨1, 0, 0⟩, ⟨1, 1, 0⟩, ⟨0, 1, 0⟩,
                 ⟨0, 0, 1⟩, ⟨1, 0, 1⟩, ⟨1, 1, 1⟩, ⟨0, 1, 1⟩] =
    [⟨0, 0, 0⟩, ⟨1, 0, 0⟩, ⟨1, 1, 0⟩, ⟨0, 1, 0⟩,
     ⟨0, 0, 1⟩, ⟨1, 0, 1⟩, ⟨1, 1, 1⟩, ⟨0, 1, 1⟩] := by
  norm_num [boundingBox, List.foldl, min_def, max_def]

/-- `Block.compute_aabb(0)` on the tetrahedron: the unit world-aligned box
centered at `(1/2, 1/2, 1/2)`. -/
theorem blockComputeAabb_tetra : blockComputeAabb tetraMesh 0 =
    some tetraUnitAabb := by
  rw [blockComputeAabb, boxFromPoints, meshAabbPoints_tetra, boundingBox_unitCube,
    fromBoundingBox_axisAligned 0 1 0 1 0 1 (by norm_num) (by norm_num) (by norm_num)]
  simp only [Option.map_some']
  norm_num [blockInflate, tetraUnitAabb]

/-! ## The claims -/

/-- **C1** (code bug, evaluation at the failing input): for a `Block` whose
collision-mesh cache is populated, `Block.transform` never completes, at any
recursion depth — the line `if self._collision_mesh: self.transform(transformation)`
re-enters `transform` itself (instead of transforming the collision mesh as
`Beam.transform` does with `self.collision_mesh.transform(transformation)`),
on a state whose collision-mesh cache is still populated, so the recursion
never terminates (a Python `RecursionError`).  The claim's statement that
`transform` updates the collision mesh in place and completes for every
populated-cache configuration therefore fails on `Block`. -/
theorem block_transform_collision_cache_diverges (n : Nat) (T : Rigid3) :
    blockTransformAux n T blockWithCollisionMesh = none :=
  blockTransformAux_none n T blockWithCollisionMesh rfl

/-- **C4**: the `Beam` constructor raises a `ValueError` (a value-domain
error) whenever `length ≤ 0` or `width ≤ 0` or `height ≤ 0`; the checks come
before any geometry is built (first statements of `Beam.__init__`), so no
degenerate box is ever produced. -/
theorem beam_init_nonpositive_dimension_valueerror (f : FrameQ) (l w h : ℚ)
    (hnp : l ≤ 0 ∨ w ≤ 0 ∨ h ≤ 0) :
    ∃ msg, beamInit f l w h = .error (.valueError msg) := by
  rw [beamInit]
  rcases hnp with hl | hw | hh
  · rw [if_pos hl]
    exact ⟨_, rfl⟩
  · by_cases hl : l ≤ 0
    · rw [if_pos hl]
      exact ⟨_, rfl⟩
    · rw [if_neg hl, if_pos hw]
      exact ⟨_, rfl⟩
  · by_cases hl : l ≤ 0
    · rw [if_pos hl]
      exact ⟨_, rfl⟩
    · by_cases hw : w ≤ 0
      · rw [if_neg hl, if_pos hw]
        exact ⟨_, rfl⟩
      · rw [if_neg hl, if_neg hw, if_pos hh]
        exact ⟨_, rfl⟩

/-- **C4 witness**: `Beam(worldXY, length=0, width=1, height=1)` raises a
`ValueError`. -/
theorem beam_init_nonpositive_dimension_valueerror_witness :
    ∃ msg, beamInit worldXYFrame 0 1 1 = .error (.valueError msg) :=
  beam_init_nonpositive_dimension_valueerror worldXYFrame 0 1 1
    (Or.inl (by norm_num))

/-- **C9**: with strictly positive dimensions (and any frame), `Beam.__init__`
reaches the `Element.__init__` call, which it passes the keyword arguments
`frame`, `geometry_simplified`, `geometry`; `Element.__init__` accepts only
`geometry`, `frame`, `name`, so the call raises `TypeError` on
`geometry_simplified`.  `Block.__init__` likewise forwards
`geometry_simplified` (and `index`) and raises `TypeError` for every mesh.
No `Beam` or `Block` is ever constructed successfully. -/
theorem element_constructors_unexpected_keyword_typeerror
    (f : FrameQ) (l w h : ℚ) (hl : 0 < l) (hw : 0 < w) (hh : 0 < h)
    (c : Vec3) (m : MeshData) :
    beamInit f l w h =
      .error (.typeError "got an unexpected keyword argument geometry_simplified") ∧
    blockInit c m =
      .error (.typeError "got an unexpected keyword argument geometry_simplified") := by
  constructor
  · rw [beamInit, if_neg (not_le.mpr hl), if_neg (not_le.mpr hw), if_neg (not_le.mpr hh)]
    rfl
  · rfl

/-- **C9 witness**: `Beam(worldXY, 1, 1, 1)` and `Block(tetrahedron)` both
raise `TypeError`. -/
theorem element_constructors_unexpected_keyword_typeerror_witness :
    beamInit worldXYFrame 1 1 1 =
      .error (.typeError "got an unexpected keyword argument geometry_simplified") ∧
    blockInit ⟨0, 0, 0⟩ tetraMesh =
      .error (.typeError "got an unexpected keyword argument geometry_simplified") :=
  element_constructors_unexpected_keyword_typeerror worldXYFrame 1 1 1
    (by norm_num) (by norm_num) (by norm_num) ⟨0, 0, 0⟩ tetraMesh

/-- **C7** (code bug, evaluation at the failing input): on a freshly
constructed `Block` over the tetrahedron mesh (which has 4 faces),
`face_polygons` returns the empty list — `_compute_face_polygons` starts with
`if hasattr(self, "_face_polygons"): return self._face_polygons`, and
`__init__` always sets `_face_polygons = []`, so the guard returns the
pre-initialized empty list and the face-loop extraction below it is dead
code.  The claim's "one polygon per face of the mesh, non-empty for a mesh
with at least one face" fails. -/
theorem block_face_polygons_always_empty :
    (blockFacePolygons freshTetraBlock).1 = [] ∧
    freshTetraBlock.geometry.faces.length = 4 :=
  ⟨rfl, rfl⟩

/-- **C10**: every access to `Block.dimensions` unconditionally recomputes
the AABB with `inflate=0` (the guard `if not type(self.geometry) is None:` is
always true) and overwrites whatever was cached in `_aabb`, returning
`[width, height, depth]` of the freshly stored box: reading `dimensions`
mutates the cached state. -/
theorem block_dimensions_recomputes_and_overwrites_aabb
    (s : BlockState) (b0 : BoxQ) (hcomp : blockComputeAabb s.geometry 0 = some b0) :
    blockDimensions s =
      some ([b0.width, b0.height, b0.depth], { s with aabb := some b0 }) := by
  rw [blockDimensions, hcomp]
  rfl

/-- **C10 witness**: on a tetrahedron `Block` whose `_aabb` cache holds the
inflated box of sizes `2, 2, 2`, reading `dimensions` overwrites the cache
with the freshly computed uninflated box of sizes `1, 1, 1` (and returns its
dimensions), discarding the inflated AABB. -/
theorem block_dimensions_recomputes_and_overwrites_aabb_witness :
    blockDimensions tetraBlockInflatedAabb =
      some ([1, 1, 1], { tetraBlockInflatedAabb with aabb := some tetraUnitAabb }) ∧
    tetraBlockInflatedAabb.aabb ≠ some tetraUnitAabb := by
  constructor
  · rw [block_dimensions_recomputes_and_overwrites_aabb tetraBlockInflatedAabb _
      blockComputeAabb_tetra]
    rfl
  · norm_num [tetraBlockInflatedAabb, tetraUnitAabb, BoxQ.mk.injEq]

/-- **C3** (code bug, evaluation at the failing input): for a beam whose frame
is rotated about the world z-axis (x-axis `(3/5, 4/5, 0)`), with
`length=2, width=1, height=1` and `inflate=0`, `Beam.compute_aabb` returns a
box whose axes are the beam's local axes (permuted) — two of them have two
nonzero world components — not a world-axis-aligned box.  The source feeds
the geometry box's own corners into `Box.from_bounding_box`, which treats
them as an already world-aligned bounding box, so the "AABB" of a rotated
beam is rotated; the claim (and the method's own docstring, "Axis Aligned
Bounding Box") require world-aligned edges. -/
theorem beam_compute_aabb_not_world_aligned :
    beamComputeAabb (beamCreateBox rotatedFrame 1 1 2) 0 =
      some ⟨⟨⟨3/5, 4/5, 0⟩, ⟨-4/5, 3/5, 0⟩, ⟨3/5, 4/5, 0⟩, ⟨0, 0, -1⟩⟩, 1, 2, 1⟩ ∧
    ¬ BoxQ.worldAligned
      ⟨⟨⟨3/5, 4/5, 0⟩, ⟨-4/5, 3/5, 0⟩, ⟨3/5, 4/5, 0⟩, ⟨0, 0, -1⟩⟩, 1, 2, 1⟩ := by
  constructor
  · have hbox : beamCreateBox rotatedFrame 1 1 2 =
        ⟨⟨⟨3/5, 4/5, 0⟩, ⟨3/5, 4/5, 0⟩, ⟨-4/5, 3/5, 0⟩, ⟨0, 0, 1⟩⟩, 2, 1, 1⟩ := by
      norm_num [beamCreateBox, rotatedFrame, Vec3.smul, Vec3.add_def,
        BoxQ.mk.injEq, FrameQ.mk.injEq, Vec3.mk.injEq]
    rw [hbox]
    rw [beamComputeAabb_closed ⟨3/5, 4/5, 0⟩ ⟨3/5, 4/5, 0⟩ ⟨-4/5, 3/5, 0⟩ ⟨0, 0, 1⟩
      2 1 1 0
      (by norm_num [FrameQ.ortho, Vec3.normSq, Vec3.dot, Vec3.cross, Vec3.mk.injEq])
      (by norm_num) (by norm_num) (by norm_num)]
    norm_num [Vec3.neg, BoxQ.mk.injEq, FrameQ.mk.injEq, Vec3.mk.injEq]
  · norm_num [BoxQ.worldAligned, BoxQ.axisParallel]

/-- **C5 counterexample**: for a `2 × 1 × 1` beam box and `inflate = 1`,
`Beam.compute_obb` returns sizes `3, 2, 2`; no uniform scale factor maps
`(2, 1, 1)` to `(3, 2, 2)`, so the inflated box does *not* preserve the
original box's proportions, contradicting the claim that Beam's
multiplicative inflation preserves proportions. -/
theorem beam_inflation_not_proportional :
    beamComputeObb ⟨worldXYFrame, 2, 1, 1⟩ 1 = some ⟨worldXYFrame, 3, 2, 2⟩ ∧
    ¬ ∃ l : ℚ, (3 : ℚ) = l * 2 ∧ (2 : ℚ) = l * 1 ∧ (2 : ℚ) = l * 1 := by
  constructor
  · rw [beamComputeObb, beamInflate_pos _ 1 (by norm_num) (by norm_num) (by norm_num)]
    norm_num [blockInflate, BoxQ.mk.injEq]
  · rintro ⟨l, h1, h2, h3⟩
    rw [mul_one] at h2
    rw [← h2] at h1
    norm_num at h1

/-- **C5 (amended)**: for every box with positive current dimensions and
every `inflate`, the multiplicative inflation lines of `Beam.compute_aabb` /
`compute_obb` (`size *= (size + inflate) / size`) produce exactly the same
result as the additive lines of `Block.compute_aabb` / `compute_obb`
(`size += inflate`): each dimension grows by the fixed margin `inflate`, so
the two element classes inflate identically, and proportions are preserved
only when all dimensions are equal. -/
theorem beam_and_block_inflation_both_additive (b : BoxQ) (t : ℚ)
    (hx : 0 < b.xsize) (hy : 0 < b.ysize) (hz : 0 < b.zsize) :
    beamComputeObb b t = some (blockInflate b t) ∧
    blockInflate b t = ⟨b.frame, b.xsize + t, b.ysize + t, b.zsize + t⟩ := by
  refine ⟨?_, rfl⟩
  rw [beamComputeObb]
  exact beamInflate_pos b t hx hy hz

/-- **C5 witness**: the amended statement evaluated on the `2 × 1 × 1` box
with `inflate = 1`. -/
theorem beam_and_block_inflation_both_additive_witness :
    beamComputeObb ⟨worldXYFrame, 2, 1, 1⟩ 1 =
      some (blockInflate ⟨worldXYFrame, 2, 1, 1⟩ 1) ∧
    blockInflate ⟨worldXYFrame, 2, 1, 1⟩ 1 = ⟨worldXYFrame, 3, 2, 2⟩ := by
  have h := beam_and_block_inflation_both_additive ⟨worldXYFrame, 2, 1, 1⟩ 1
    (by norm_num) (by norm_num) (by norm_num)
  refine ⟨h.1, ?_⟩
  rw [h.2]
  norm_num [BoxQ.mk.injEq]

/-- **C6** (code bug, evaluation at the failing input): for
`Beam(worldXY, length=2, width=1, height=1)`, `compute_face_polygons` does
return 6 quads, but they do not coincide with the faces of the geometry box:
the first vertex of the sixth quad is `(1, 1, 1/2)`, which lies strictly
outside the geometry box (`x ∈ [0,2] × y ∈ [-1/2,1/2] × z ∈ [-1/2,1/2]`).
The cause: `Beam.dimensions` returns `[length, height, width]`
(`[xsize, zsize, ysize]`), while `compute_face_polygons` uses
`dimensions[2]` as the length along the x-axis and `dimensions[0]` as the
width along the y-axis, so length and width are exchanged whenever
`length ≠ width`. -/
theorem beam_face_polygons_leave_box :
    (beamComputeFacePolygons beam211).length = 6 ∧
    ((beamComputeFacePolygons beam211).getD 5 []).getD 0 ⟨0, 0, 0⟩ = ⟨1, 1, 1/2⟩ ∧
    ¬ BoxQ.containsPt beam211.geometry ⟨1, 1, 1/2⟩ := by
  refine ⟨rfl, ?_, ?_⟩
  · norm_num [beamComputeFacePolygons, beamDimensions, beamMidPoint, beam211,
      beamCreateBox, worldXYFrame, Vec3.smul, Vec3.add_def, Vec3.sub_def,
      BoxQ.width, BoxQ.height, BoxQ.depth, Vec3.mk.injEq, List.getD]
  · norm_num [BoxQ.containsPt, beam211, beamCreateBox, worldXYFrame,
      Vec3.dot, Vec3.sub_def, Vec3.smul, Vec3.add_def]

/-- **C8**: `Block.compute_collision_mesh` returns (and caches) the mesh
whose vertices are the block mesh's vertex coordinates and whose faces are
`convex_hull(vertices)` (the external kernel's hull routine, a parameter
here); in particular it depends only on the vertex set — two blocks with the
same vertices but different face lists get the same collision mesh, so the
collision mesh is the convex hull, not the shape-exact mesh.
`Beam.compute_collision_mesh` is the exact geometry box converted to a mesh
(`Box.to_vertices_and_faces`: the box's 8 corner points with its 6 quad
faces). -/
theorem collision_mesh_hull_for_block_exact_box_for_beam
    (hull : List Vec3 → List (List Nat)) (s s' : BlockState) (g : BoxQ)
    (hvs : s.geometry.vertices = s'.geometry.vertices) :
    (blockComputeCollisionMesh hull s).1 =
      ⟨s.geometry.vertices, hull s.geometry.vertices⟩ ∧
    (blockComputeCollisionMesh hull s).1 = (blockComputeCollisionMesh hull s').1 ∧
    beamComputeCollisionMesh g = ⟨BoxQ.points g, BoxQ.faces⟩ ∧
    BoxQ.faces.length = 6 := by
  refine ⟨rfl, ?_, rfl, rfl⟩
  simp only [blockComputeCollisionMesh, hvs]

/-- **C8 witness**: instantiated with a concrete hull function, the
tetrahedron block, a block with the same vertices but different faces, and
the `2 × 1 × 1` beam box. -/
theorem collision_mesh_hull_for_block_exact_box_for_beam_witness :
    (blockComputeCollisionMesh hullConst freshTetraBlock).1 =
      ⟨freshTetraBlock.geometry.vertices, hullConst freshTetraBlock.geometry.vertices⟩ ∧
    (blockComputeCollisionMesh hullConst freshTetraBlock).1 =
      (blockComputeCollisionMesh hullConst altFacesBlock).1 ∧
    beamComputeCollisionMesh (beamCreateBox worldXYFrame 1 1 2) =
      ⟨BoxQ.points (beamCreateBox worldXYFrame 1 1 2), BoxQ.faces⟩ ∧
    BoxQ.faces.length = 6 :=
  collision_mesh_hull_for_block_exact_box_for_beam hullConst freshTetraBlock
    altFacesBlock (beamCreateBox worldXYFrame 1 1 2) rfl

/-- Round trip of the face-polygon cache update of `Beam.transform`
(truthiness-guarded in-place transform) under a transformation and its
inverse. -/
theorem facePolygonsUpdate_roundtrip {T Ti : Rigid3}
    (hT : ∀ p, applyPt Ti (applyPt T p) = p) (fp : Option (List PolygonQ)) :
    (if pyTruthyList (if pyTruthyList fp then fp.map (List.map (polygonTransform T)) else fp)
     then (if pyTruthyList fp then fp.map (List.map (polygonTransform T)) else fp).map
       (List.map (polygonTransform Ti))
     else (if pyTruthyList fp then fp.map (List.map (polygonTransform T)) else fp)) = fp := by
  cases fp with
  | none => rfl
  | some l =>
      cases l with
      | nil => rfl
      | cons a t =>
          simp [pyTruthyList, List.map_map, Function.comp_def,
            polygonTransform_roundtrip hT]

/-- **C2 (amended)**: for a `Beam` and a rigid transformation `T` with
inverse `Ti`, `transformed(T)` is a deep value copy followed by an in-place
transform (the receiver value is unchanged), and
`e.transformed(T).transformed(Ti)` reproduces the original frame, simplified
geometry, geometry and the populated `obb` / `collision_mesh` /
`face_polygons` caches exactly (in exact arithmetic); the `aabb` cache,
however, is *recomputed with `inflate = 0`* by each transform, so it is
reproduced only when it held the uninflated AABB.  (The two `isSome`
hypotheses say that the recomputations succeed, i.e. stay inside the
rational fragment; for a `Block` with a populated collision-mesh cache the
round trip instead diverges — see the C1 theorem.) -/
theorem beam_transformed_roundtrip (T Ti : Rigid3) (s : BeamState)
    (hT : ∀ p, applyPt Ti (applyPt T p) = p)
    (hTv : ∀ v, applyVec Ti (applyVec T v) = v)
    (hmid : s.aabb.isSome → (beamComputeAabb (BoxQ.transform T s.geometry) 0).isSome)
    (hfin : s.aabb.isSome → (beamComputeAabb s.geometry 0).isSome) :
    (beamTransformed T s).bind (beamTransformed Ti) =
      some { frame := s.frame, geometrySimplified := s.geometrySimplified,
             geometry := s.geometry,
             aabb := s.aabb.bind fun _ => beamComputeAabb s.geometry 0,
             obb := s.obb, collisionMesh := s.collisionMesh,
             facePolygons := s.facePolygons } := by
  have hobb : (s.obb.map (BoxQ.transform T)).map (BoxQ.transform Ti) = s.obb := by
    cases s.obb with
    | none => rfl
    | some b => simp [boxTransform_roundtrip hT hTv]
  have hcm : (s.collisionMesh.map (meshTransform T)).map (meshTransform Ti) =
      s.collisionMesh := by
    cases s.collisionMesh with
    | none => rfl
    | some m => simp [meshTransform_roundtrip hT]
  cases hs : s.aabb with
  | none =>
      simp only [beamTransformed, beamTransform, hs, Option.some_bind, Option.none_bind]
      simp only [frameTransform_roundtrip hT hTv, lineTransform_roundtrip hT,
        boxTransform_roundtrip hT hTv, hobb, hcm, facePolygonsUpdate_roundtrip hT]
  | some b0 =>
      obtain ⟨b1, hb1⟩ := Option.isSome_iff_exists.mp (hmid (by rw [hs]; rfl))
      obtain ⟨b2, hb2⟩ := Option.isSome_iff_exists.mp (hfin (by rw [hs]; rfl))
      simp only [beamTransformed, beamTransform, hs, hb1, Option.map_some',
        Option.some_bind]
      rw [boxTransform_roundtrip hT hTv s.geometry, hb2]
      simp only [Option.map_some', Option.some_bind]
      simp only [frameTransform_roundtrip hT hTv, lineTransform_roundtrip hT,
        boxTransform_roundtrip hT hTv, hobb, hcm, facePolygonsUpdate_roundtrip hT]

/-- `translateXinv` inverts `translateX` on points. -/
theorem translateX_inv_pt : ∀ p, applyPt translateXinv (applyPt translateX p) = p := by
  intro p
  ext <;> simp [applyPt, applyVec, translateX, translateXinv, Vec3.dot,
    Vec3.add_def]

/-- `translateXinv` inverts `translateX` on vectors (the rotation part is the
identity). -/
theorem translateX_inv_vec : ∀ v, applyVec translateXinv (applyVec translateX v) = v := by
  intro v
  ext <;> simp [applyVec, translateX, translateXinv, Vec3.dot]

/-- The cubic beam's geometry box, explicitly. -/
theorem beamCube_geometry : beamCubeInflatedAabb.geometry =
    ⟨⟨⟨1, 0, 0⟩, ⟨1, 0, 0⟩, ⟨0, 1, 0⟩, ⟨0, 0, 1⟩⟩, 2, 2, 2⟩ := by
  norm_num [beamCubeInflatedAabb, beamCreateBox, worldXYFrame, Vec3.smul,
    Vec3.add_def, BoxQ.mk.injEq, FrameQ.mk.injEq, Vec3.mk.injEq]

/-- Translating the cubic beam's geometry box by `(1,0,0)`. -/
theorem beamCube_geometry_translated :
    BoxQ.transform translateX beamCubeInflatedAabb.geometry =
    ⟨⟨⟨2, 0, 0⟩, ⟨1, 0, 0⟩, ⟨0, 1, 0⟩, ⟨0, 0, 1⟩⟩, 2, 2, 2⟩ := by
  rw [beamCube_geometry]
  norm_num [BoxQ.transform, frameTransform, applyPt, applyVec, translateX,
    Vec3.dot, Vec3.add_def, BoxQ.mk.injEq, FrameQ.mk.injEq, Vec3.mk.injEq]

/-- `Beam.compute_aabb(0)` on the translated cubic geometry box. -/
theorem beamCube_aabb_mid :
    beamComputeAabb ⟨⟨⟨2, 0, 0⟩, ⟨1, 0, 0⟩, ⟨0, 1, 0⟩, ⟨0, 0, 1⟩⟩, 2, 2, 2⟩ 0 =
      some ⟨⟨⟨2, 0, 0⟩, ⟨0, 1, 0⟩, ⟨1, 0, 0⟩, ⟨0, 0, -1⟩⟩, 2, 2, 2⟩ := by
  rw [beamComputeAabb_closed ⟨2, 0, 0⟩ ⟨1, 0, 0⟩ ⟨0, 1, 0⟩ ⟨0, 0, 1⟩ 2 2 2 0
    (by norm_num [FrameQ.ortho, Vec3.normSq, Vec3.dot, Vec3.cross, Vec3.mk.injEq])
    (by norm_num) (by norm_num) (by norm_num)]
  norm_num [Vec3.neg, BoxQ.mk.injEq, FrameQ.mk.injEq, Vec3.mk.injEq]

/-- Translating the already-translated cubic geometry box back by
`(-1,0,0)`. -/
theorem beamCube_geometry_translated_back :
    BoxQ.transform translateXinv ⟨⟨⟨2, 0, 0⟩, ⟨1, 0, 0⟩, ⟨0, 1, 0⟩, ⟨0, 0, 1⟩⟩, 2, 2, 2⟩ =
    ⟨⟨⟨1, 0, 0⟩, ⟨1, 0, 0⟩, ⟨0, 1, 0⟩, ⟨0, 0, 1⟩⟩, 2, 2, 2⟩ := by
  norm_num [BoxQ.transform, frameTransform, applyPt, applyVec, translateXinv,
    Vec3.dot, Vec3.add_def, BoxQ.mk.injEq, FrameQ.mk.injEq, Vec3.mk.injEq]

/-- `Beam.compute_aabb(0)` on the cubic geometry box itself. -/
theorem beamCube_aabb_final :
    beamComputeAabb ⟨⟨⟨1, 0, 0⟩, ⟨1, 0, 0⟩, ⟨0, 1, 0⟩, ⟨0, 0, 1⟩⟩, 2, 2, 2⟩ 0 =
      some beamCubeAabb0 := by
  rw [beamComputeAabb_closed ⟨1, 0, 0⟩ ⟨1, 0, 0⟩ ⟨0, 1, 0⟩ ⟨0, 0, 1⟩ 2 2 2 0
    (by norm_num [FrameQ.ortho, Vec3.normSq, Vec3.dot, Vec3.cross, Vec3.mk.injEq])
    (by norm_num) (by norm_num) (by norm_num)]
  norm_num [Vec3.neg, beamCubeAabb0, BoxQ.mk.injEq, FrameQ.mk.injEq, Vec3.mk.injEq]

/-- **C2 counterexample**: the cubic beam whose `_aabb` cache holds the
inflated AABB (`compute_aabb(inflate=1)`, sizes `3, 3, 3`), translated by
`(1,0,0)` and back: frame, geometry and the other caches are restored, but
the AABB cache now holds the *uninflated* AABB (sizes `2, 2, 2`) — each
`transform` recomputes it with `inflate = 0` — so the round trip does not
reproduce all populated caches, contradicting the claim as stated. -/
theorem beam_roundtrip_drops_inflated_aabb :
    (beamTransformed translateX beamCubeInflatedAabb).bind
      (beamTransformed translateXinv) = some beamCubeRoundTripped ∧
    beamCubeRoundTripped.frame = beamCubeInflatedAabb.frame ∧
    beamCubeRoundTripped.geometry = beamCubeInflatedAabb.geometry ∧
    beamCubeRoundTripped.aabb ≠ beamCubeInflatedAabb.aabb := by
  refine ⟨?_, rfl, rfl, ?_⟩
  · have hsome : beamCubeInflatedAabb.aabb =
        some ⟨⟨⟨1, 0, 0⟩, ⟨0, 1, 0⟩, ⟨1, 0, 0⟩, ⟨0, 0, -1⟩⟩, 3, 3, 3⟩ := rfl
    simp only [beamTransformed, beamTransform, hsome]
    rw [beamCube_geometry_translated, beamCube_aabb_mid]
    simp only [Option.map_some', Option.some_bind]
    rw [beamCube_geometry_translated_back, beamCube_aabb_final]
    simp only [Option.map_some']
    rw [beamCubeRoundTripped]
    simp only [Option.some.injEq]
    refine BeamState.mk.injEq _ _ _ _ _ _ _ _ _ _ _ _ _ _ |>.mpr ?_
    refine ⟨?_, ?_, beamCube_geometry.symm, rfl, rfl, rfl, rfl⟩
    · exact frameTransform_roundtrip translateX_inv_pt translateX_inv_vec _
    · exact lineTransform_roundtrip translateX_inv_pt _
  · norm_num [beamCubeRoundTripped, beamCubeAabb0, beamCubeInflatedAabb,
      BoxQ.mk.injEq]

/-- **C2 witness**: the amended round-trip statement instantiated on the
cubic beam with the inflated AABB cache and the translation `(1,0,0)`. -/
theorem beam_transformed_roundtrip_witness :
    (beamTransformed translateX beamCubeInflatedAabb).bind
      (beamTransformed translateXinv) =
      some { frame := beamCubeInflatedAabb.frame,
             geometrySimplified := beamCubeInflatedAabb.geometrySimplified,
             geometry := beamCubeInflatedAabb.geometry,
             aabb := beamCubeInflatedAabb.aabb.bind fun _ =>
               beamComputeAabb beamCubeInflatedAabb.geometry 0,
             obb := beamCubeInflatedAabb.obb,
             collisionMesh := beamCubeInflatedAabb.collisionMesh,
             facePolygons := beamCubeInflatedAabb.facePolygons } :=
  beam_transformed_roundtrip translateX translateXinv beamCubeInflatedAabb
    translateX_inv_pt translateX_inv_vec
    (fun _ => by
      rw [beamCube_geometry_translated, beamCube_aabb_mid]
      rfl)
    (fun _ => by
      rw [beamCube_geometry, beamCube_aabb_final]
      rfl)

end CompasModel
